import Mathlib

/-!
Shallow embedding of the huntbackend FastAPI service (property-marketplace
REST backend) and verification of its specification claims.

The embedding follows the Python source:
  * `app/services/otp_service.py` — OTP generation/verification state machine
  * `app/routers/properties.py`   — property CRUD, paginated listing
  * `app/routers/favorites.py`    — favorite creation with pair-uniqueness check
  * `app/routers/users.py`        — user CRUD, password-hiding response shaping
  * `app/routers/upload.py`       — image upload validation
  * `app/routers/filter_screen.py`— facet/range computation with fallbacks

MongoDB collections are modelled as association lists or partial maps,
documents as association lists of BSON-like values, and each route handler
as a pure function from request plus database state to an HTTP result plus
the new database state.  Timestamps are naturals, monetary/area amounts are
integers (ordering-exact model of the floats used by the code).
-/

set_option maxHeartbeats 1000000

namespace Hunt

/-- BSON-like values stored in documents. -/
inductive BVal where
  | str (s : String)
  | int (n : Int)
  | bool (b : Bool)
  | null
  | oid (s : String)
  deriving DecidableEq, Repr

/-- A MongoDB document: an association list of field name to value
(Python `dict`: keys are unique, insertion-ordered). -/
abbrev Doc : Type := List (String × BVal)

/-- `d[k]` lookup on a document (first matching key). -/
def Doc.get : Doc → String → Option BVal
  | [], _ => none
  | (k', v) :: rest, k => if k' = k then some v else Doc.get rest k

/-- `d[k] = v` / `$set` on one key: replace in place when present,
append when absent (Python dict assignment order semantics). -/
def Doc.set : Doc → String → BVal → Doc
  | [], k, v => [(k, v)]
  | (k', v') :: rest, k, v =>
      if k' = k then (k, v) :: rest else (k', v') :: Doc.set rest k v

/-- `d.pop(k, None)`: remove the key when present. -/
def Doc.pop : Doc → String → Doc
  | [], _ => []
  | p :: rest, k => if p.1 = k then Doc.pop rest k else p :: Doc.pop rest k

/-- Apply a `$set` for every (field, value) pair of a partial-update
payload, in order (`update_one({"$set": update_data})`). -/
def Doc.setMany (d : Doc) (patch : List (String × BVal)) : Doc :=
  patch.foldl (fun acc kv => acc.set kv.1 kv.2) d

/-- Keys present in a document. -/
def Doc.keys (d : Doc) : List String := d.map Prod.fst

/-- `bson.ObjectId.is_valid` on a string: exactly 24 hexadecimal digits. -/
def isHexChar (c : Char) : Bool :=
  c.isDigit || ('a' ≤ c && c ≤ 'f') || ('A' ≤ c && c ≤ 'F')

def objectIdOk (s : String) : Bool :=
  s.length == 24 && s.toList.all isHexChar

/-- Result of a route handler: a successful payload or an
`HTTPException(status_code, detail)`. -/
inductive HResult (α : Type) where
  | ok (a : α)
  | error (status : Nat) (detail : String)
  deriving DecidableEq, Repr

/-! ## OTP service (`app/services/otp_service.py`) -/

/-- One stored OTP record (value of `otp_storage[phone]` and document of the
`otps` collection): code, expiry instant, verified flag, attempt counter. -/
structure OtpRec where
  otp : String
  expires_at : Nat
  verified : Bool
  attempts : Nat
  deriving DecidableEq, Repr

/-- The OTP store (`otp_storage` dict / `otps` collection) keyed by phone. -/
def OtpStore : Type := String → Option OtpRec

def OtpStore.set (s : OtpStore) (phone : String) (r : OtpRec) : OtpStore :=
  fun p => if p = phone then some r else s p

def OtpStore.erase (s : OtpStore) (phone : String) : OtpStore :=
  fun p => if p = phone then none else s p

/-- `OTPService.verify_otp(phone_number, otp)` at instant `now`
(`datetime.utcnow()`).  Returns the boolean result and the store after the
call's mutations. -/
def verify_otp (store : OtpStore) (now : Nat) (phone otp : String) :
    Bool × OtpStore :=
  match store phone with
  | none => (false, store)
  | some rec0 =>
    if now > rec0.expires_at then
      (false, store.erase phone)
    else if rec0.attempts ≥ 5 then
      (false, store.erase phone)
    else
      if rec0.otp = otp then
        (true, store.set phone
          { rec0 with attempts := rec0.attempts + 1, verified := true })
      else
        (false, store.set phone { rec0 with attempts := rec0.attempts + 1 })

/-- `OTPService.verify_otp_from_db(phone_number, otp)` at instant `now`:
same guards, with the `$inc` on `attempts` issued before the code
comparison and `verified` set by a second update on success. -/
def verify_otp_from_db (store : OtpStore) (now : Nat) (phone otp : String) :
    Bool × OtpStore :=
  match store phone with
  | none => (false, store)
  | some rec0 =>
    if now > rec0.expires_at then
      (false, store.erase phone)
    else if rec0.attempts ≥ 5 then
      (false, store.erase phone)
    else
      let store1 := store.set phone { rec0 with attempts := rec0.attempts + 1 }
      if rec0.otp = otp then
        (true, store1.set phone
          { rec0 with attempts := rec0.attempts + 1, verified := true })
      else
        (false, store1)

/-- `n` successive `verify_otp` calls with the same phone, code and clock,
threading the store (only the store component is kept). -/
def verifyIter (store : OtpStore) (now : Nat) (phone otp : String) :
    Nat → OtpStore
  | 0 => store
  | n + 1 => (verify_otp (verifyIter store now phone otp n) now phone otp).2

@[simp] theorem OtpStore.set_same (s : OtpStore) (phone : String) (r : OtpRec) :
    s.set phone r phone = some r := by
  simp [OtpStore.set]

@[simp] theorem OtpStore.erase_same (s : OtpStore) (phone : String) :
    s.erase phone phone = none := by
  simp [OtpStore.erase]

/-- After `n ≤ 5` verification calls with a wrong code on a fresh,
unexpired record, the stored attempt counter equals `n`. -/
theorem verifyIter_wrong_attempts
    (store : OtpStore) (now : Nat) (phone wrong : String) (r : OtpRec)
    (hrec : store phone = some r) (h0 : r.attempts = 0) (hw : wrong ≠ r.otp)
    (hexp : ¬ now > r.expires_at) :
    ∀ n, n ≤ 5 →
      (verifyIter store now phone wrong n) phone = some { r with attempts := n }
  | 0, _ => by
      cases r with
      | mk o e v a =>
        simp only [OtpRec.mk.injEq] at h0 ⊢
        simpa [verifyIter, h0] using hrec
  | n + 1, hn => by
      have ih := verifyIter_wrong_attempts store now phone wrong r hrec h0 hw hexp
        n (Nat.le_of_succ_le hn)
      have hlt : n < 5 := Nat.lt_of_succ_le hn
      have hne : r.otp ≠ wrong := fun h => hw h.symm
      simp only [verifyIter, verify_otp, ih]
      simp [hexp, Nat.not_le.mpr hlt, hne]

-- Concrete OTP stores used to witness the OTP theorems.
def otpRecCapped : OtpRec := { otp := "123456", expires_at := 1000, verified := false, attempts := 5 }

def otpStoreCapped : OtpStore := fun p => if p = "9999" then some otpRecCapped else none

def otpRecFresh : OtpRec := { otp := "123456", expires_at := 1000, verified := false, attempts := 0 }

def otpStoreFresh : OtpStore := fun p => if p = "8888" then some otpRecFresh else none

/-- C2: a verification check on an expired record or on a record whose
attempt counter has reached 5 returns failure for every submitted code
(in particular for the correct one), in both the in-memory and the
database-backed verifier; and after 5 verification attempts on the same
phone number, a further call with the correct code still fails. -/
theorem otp_verification_rejects_expired_or_capped :
    (∀ (store : OtpStore) (now : Nat) (phone otp : String) (r : OtpRec),
        store phone = some r →
        (now > r.expires_at ∨ 5 ≤ r.attempts) →
        (verify_otp store now phone otp).1 = false ∧
        (verify_otp_from_db store now phone otp).1 = false) ∧
    (∀ (store : OtpStore) (now : Nat) (phone wrong : String) (r : OtpRec),
        store phone = some r → r.attempts = 0 → wrong ≠ r.otp →
        ¬ now > r.expires_at →
        (verify_otp (verifyIter store now phone wrong 5) now phone r.otp).1
          = false) := by
  constructor
  · intro store now phone otp r hrec hbad
    rcases hbad with h | h
    · constructor <;> simp [verify_otp, verify_otp_from_db, hrec, h]
    · constructor <;> simp [verify_otp, verify_otp_from_db, hrec, h, Nat.not_lt.mpr h]
  · intro store now phone wrong r hrec h0 hw hexp
    have h5 := verifyIter_wrong_attempts store now phone wrong r hrec h0 hw hexp 5
      (Nat.le_refl 5)
    simp [verify_otp, h5, hexp]

/-- Witness for `otp_verification_rejects_expired_or_capped` at concrete
inputs: a capped record rejects the correct code, and five wrong attempts
on a fresh record lock out the correct code. -/
theorem otp_verification_rejects_witness :
    (verify_otp otpStoreCapped 500 "9999" "123456").1 = false ∧
    (verify_otp (verifyIter otpStoreFresh 500 "8888" "000000" 5) 500 "8888"
      "123456").1 = false := by
  refine ⟨(otp_verification_rejects_expired_or_capped.1 otpStoreCapped 500 "9999"
      "123456" otpRecCapped rfl (Or.inr (by decide))).1,
    otp_verification_rejects_expired_or_capped.2 otpStoreFresh 500 "8888" "000000"
      otpRecFresh rfl rfl (by decide) (by decide)⟩

/-- C6 counterexample: a check against an unexpired stored record with
attempt counter 5 and the correct submitted code does not increment the
counter — the record is deleted outright, so no record (with counter 6 or
otherwise) remains for the phone. -/
theorem verify_otp_capped_check_deletes_record :
    otpStoreCapped "9999" = some otpRecCapped ∧
    otpRecCapped.attempts = 5 ∧
    otpRecCapped.otp = "123456" ∧
    ¬ (500 : Nat) > otpRecCapped.expires_at ∧
    (verify_otp otpStoreCapped 500 "9999" "123456").2 "9999" = none ∧
    (verify_otp_from_db otpStoreCapped 500 "9999" "123456").2 "9999" = none := by
  refine ⟨rfl, rfl, rfl, by decide, ?_, ?_⟩ <;>
    simp [verify_otp, verify_otp_from_db, otpStoreCapped, otpRecCapped]

/-- C6 amended: a verification check against a stored record increments the
attempt counter by one exactly when the record is unexpired and its counter
is below 5 (whether the code matches or not, the match additionally setting
the verified flag); when the record is expired or the counter has reached 5,
the record is deleted instead of incremented. -/
theorem otp_attempt_counter_increment_amended
    (store : OtpStore) (now : Nat) (phone otp : String) (r : OtpRec)
    (hrec : store phone = some r) :
    ((¬ now > r.expires_at ∧ r.attempts < 5) →
      ((verify_otp store now phone otp).2 phone =
        some (if r.otp = otp then
                { r with attempts := r.attempts + 1, verified := true }
              else { r with attempts := r.attempts + 1 }) ∧
       (verify_otp_from_db store now phone otp).2 phone =
        some (if r.otp = otp then
                { r with attempts := r.attempts + 1, verified := true }
              else { r with attempts := r.attempts + 1 }))) ∧
    ((now > r.expires_at ∨ 5 ≤ r.attempts) →
      ((verify_otp store now phone otp).2 phone = none ∧
       (verify_otp_from_db store now phone otp).2 phone = none)) := by
  constructor
  · rintro ⟨hexp, hlt⟩
    by_cases hm : r.otp = otp <;>
      simp [verify_otp, verify_otp_from_db, hrec, hexp, Nat.not_le.mpr hlt, hm]
  · rintro (h | h)
    · constructor <;> simp [verify_otp, verify_otp_from_db, hrec, h]
    · constructor <;> simp [verify_otp, verify_otp_from_db, hrec, h, Nat.not_lt.mpr h]

/-- Witness for `otp_attempt_counter_increment_amended`: a mismatching check
on a fresh record stores counter 1, and a check on a capped record deletes it. -/
theorem otp_attempt_counter_increment_witness :
    (verify_otp otpStoreFresh 500 "8888" "000000").2 "8888" =
      some { otpRecFresh with attempts := 1 } ∧
    (verify_otp otpStoreCapped 500 "9999" "000000").2 "9999" = none := by
  constructor
  · have h := (otp_attempt_counter_increment_amended otpStoreFresh 500 "8888"
      "000000" otpRecFresh rfl).1 ⟨by decide, by decide⟩
    simpa [otpRecFresh] using h.1
  · exact ((otp_attempt_counter_increment_amended otpStoreCapped 500 "9999"
      "000000" otpRecCapped rfl).2 (Or.inr (by decide))).1

/-! ## Image upload (`app/routers/upload.py`) -/

/-- The characters from the last `'.'` (inclusive) of the list, if any. -/
def lastDotSplit : List Char → Option (List Char)
  | [] => none
  | c :: rest =>
    match lastDotSplit rest with
    | some s => some s
    | none => if c = '.' then some (c :: rest) else none

/-- The characters strictly after the last `'/'`, if the list has one. -/
def afterLastSlashAux : List Char → Option (List Char)
  | [] => none
  | c :: rest =>
    match afterLastSlashAux rest with
    | some s => some s
    | none => if c = '/' then some rest else none

/-- Final path component of a name (the whole name when it has no `'/'`). -/
def afterLastSlash (cs : List Char) : List Char :=
  (afterLastSlashAux cs).getD cs

/-- `pathlib.Path(s).suffix`: extension of the final path component, i.e.
the part from the last dot, empty when the dot is the leading or the final
character of the name. -/
def fileSuffix (s : String) : String :=
  match afterLastSlash s.toList with
  | [] => ""
  | _ :: rest =>
    match lastDotSplit rest with
    | some l => if l.length ≤ 1 then "" else String.mk l
    | none => ""

/-- `str.lower()` restricted to ASCII, as applied to file extensions. -/
def lowerChar (c : Char) : Char :=
  if 'A' ≤ c ∧ c ≤ 'Z' then Char.ofNat (c.toNat + 32) else c

def lowerStr (s : String) : String :=
  String.mk (s.toList.map lowerChar)

def ALLOWED_EXTENSIONS : List String := [".jpg", ".jpeg", ".png", ".gif", ".webp"]

def MAX_SIZE_MB : Nat := 10

/-- `_allowed_file(filename)`. -/
def allowed_file (filename : String) : Bool :=
  ALLOWED_EXTENSIONS.any (fun e => decide (lowerStr (fileSuffix filename) = e))

/-- Observable outcome of `upload_image`: HTTP status and whether a file
was written to the uploads directory. -/
structure UploadResult where
  status : Nat
  stored : Bool
  deriving DecidableEq, Repr

/-- `upload_image(file)` for a file with name `filename` and `size` content
bytes.  The oversize branch raises `HTTPException(400, "File too large")`
inside the handler's `try` block; since FastAPI's `HTTPException` derives
from `Exception`, the `except Exception` clause catches it and re-raises
`HTTPException(500, "Upload failed: ...")`, so the client observes
status 500 on that path, and the file write is never reached. -/
def upload_image (filename : String) (size : Nat) : UploadResult :=
  if filename = "" || !(allowed_file filename) then
    { status := 400, stored := false }
  else if size > MAX_SIZE_MB * 1024 * 1024 then
    { status := 500, stored := false }
  else
    { status := 200, stored := true }

/-- C7: an upload whose content exceeds 10 MB stores no file, but is
rejected with status 500 (the in-handler `HTTPException(400)` is swallowed
by the `except Exception` clause and re-raised as a 500), not with the
status 400 the specification assigns to malformed input. -/
theorem upload_image_oversize_returns_500 (filename : String) (size : Nat)
    (hname : filename ≠ "") (hext : allowed_file filename = true)
    (hsize : size > MAX_SIZE_MB * 1024 * 1024) :
    upload_image filename size = { status := 500, stored := false } := by
  simp [upload_image, hname, hext, hsize]

/-- Witness for `upload_image_oversize_returns_500`: a 10 MB + 1 byte
`photo.jpg` upload yields status 500 and stores nothing. -/
theorem upload_image_oversize_witness :
    upload_image "photo.jpg" (10 * 1024 * 1024 + 1) =
      { status := 500, stored := false } :=
  upload_image_oversize_returns_500 "photo.jpg" (10 * 1024 * 1024 + 1)
    (by decide) (by decide) (by decide)

/-! ## Document field lemmas -/

@[simp] theorem Doc.get_set_self (d : Doc) (k : String) (v : BVal) :
    (d.set k v).get k = some v := by
  induction d with
  | nil => simp [Doc.set, Doc.get]
  | cons p rest ih =>
    by_cases h : p.1 = k <;> simp [Doc.set, Doc.get, h, ih]

theorem Doc.get_set_ne (d : Doc) {k' k : String} (v : BVal) (h : k' ≠ k) :
    (d.set k' v).get k = d.get k := by
  induction d with
  | nil => simp [Doc.set, Doc.get, h]
  | cons p rest ih =>
    by_cases hp : p.1 = k'
    · simp [Doc.set, Doc.get, hp, h]
    · simp [Doc.set, Doc.get, hp, ih]

theorem Doc.get_setMany_notMem (d : Doc) (patch : List (String × BVal))
    {k : String} (hk : k ∉ patch.map Prod.fst) :
    (d.setMany patch).get k = d.get k := by
  induction patch generalizing d with
  | nil => rfl
  | cons kv rest ih =>
    simp only [List.map_cons, List.mem_cons] at hk
    push_neg at hk
    simpa [Doc.setMany] using
      (ih (d.set kv.1 kv.2) hk.2).trans (Doc.get_set_ne d kv.2 (fun h => hk.1 h.symm))

/-! ## Property collection (`app/routers/properties.py`) -/

/-- The `properties` collection: a partial map from `_id` hex string to the
stored document. -/
def PropColl : Type := String → Option Doc

def PropColl.insert (coll : PropColl) (pid : String) (d : Doc) : PropColl :=
  fun p => if p = pid then some d else coll p

def PropColl.remove (coll : PropColl) (pid : String) : PropColl :=
  fun p => if p = pid then none else coll p

/-- `str(v)` as applied to stored `_id` / `owner_id` values. -/
def strOfBVal : BVal → String
  | .str s => s
  | .oid s => s
  | .int n => toString n
  | .bool b => if b then "True" else "False"
  | .null => "None"

/-- Response shaping of a stored property document:
`prop["_id"] = str(prop["_id"]); prop["owner_id"] = str(prop["owner_id"])`. -/
def shape_property (d : Doc) : Doc :=
  let d1 := d.set "_id" (BVal.str (strOfBVal ((d.get "_id").getD BVal.null)))
  d1.set "owner_id" (BVal.str (strOfBVal ((d1.get "owner_id").getD BVal.null)))

/-- `create_property(property)`: convert `owner_id` to an ObjectId, stamp
`posted_at`, insert with the driver-generated `_id` `newId`, re-fetch and
shape.  Returns the response document and the new collection. -/
def create_property (coll : PropColl) (payload : Doc) (newId : String)
    (now : Nat) : Doc × PropColl :=
  let d1 := payload.set "owner_id"
    (BVal.oid (strOfBVal ((payload.get "owner_id").getD BVal.null)))
  let d2 := d1.set "posted_at" (BVal.int now)
  let stored := d2.set "_id" (BVal.oid newId)
  (shape_property stored, coll.insert newId stored)

/-- `get_property(property_id)`. -/
def get_property (coll : PropColl) (pid : String) : HResult Doc :=
  if objectIdOk pid = false then .error 400 "Invalid property ID"
  else
    match coll pid with
    | none => .error 404 "Property not found"
    | some d => .ok (shape_property d)

/-- `delete_property(property_id)`: resulting HTTP status (204 on success,
the route's declared `status_code`) and the collection afterwards. -/
def delete_property (coll : PropColl) (pid : String) : Nat × PropColl :=
  if objectIdOk pid = false then (400, coll)
  else
    match coll pid with
    | none => (404, coll)
    | some _ => (204, coll.remove pid)

/-- `update_property(property_id, property_update)`: `patch` is
`property_update.dict(exclude_unset=True)` as (field, value) pairs. -/
def update_property (coll : PropColl) (pid : String)
    (patch : List (String × BVal)) : HResult Doc × PropColl :=
  if objectIdOk pid = false then (.error 400 "Invalid property ID", coll)
  else if patch.isEmpty then (.error 400 "No fields to update", coll)
  else
    match coll pid with
    | none => (.error 404 "Property not found", coll)
    | some d =>
      let d' := d.setMany patch
      (.ok (shape_property d'), coll.insert pid d')

/-- C4: for every creation payload, fetching the identifier assigned by
`create_property` through `get_property` returns a payload identical to the
one `create_property` returned. -/
theorem create_then_get_roundtrip (coll : PropColl) (payload : Doc)
    (newId : String) (now : Nat) (hid : objectIdOk newId = true) :
    get_property (create_property coll payload newId now).2 newId =
      .ok (create_property coll payload newId now).1 := by
  simp [create_property, get_property, hid, PropColl.insert]

-- Concrete inputs used by the property-route witnesses.
def pid0 : String := "0123456789abcdef01234567"

def owner0 : String := "aaaabbbbccccddddeeeeffff"

def emptyPropColl : PropColl := fun _ => none

def payload0 : Doc :=
  [("title", .str "2BHK Flat"), ("price", .int 4500000), ("owner_id", .str owner0)]

def propDoc0 : Doc :=
  [("_id", .oid pid0), ("owner_id", .oid owner0),
   ("title", .str "2BHK Flat"), ("price", .int 4500000)]

def propColl0 : PropColl := fun p => if p = pid0 then some propDoc0 else none

/-- Witness for `create_then_get_roundtrip` on a concrete payload. -/
theorem create_then_get_roundtrip_witness :
    get_property (create_property emptyPropColl payload0 pid0 17).2 pid0 =
      .ok (create_property emptyPropColl payload0 pid0 17).1 :=
  create_then_get_roundtrip emptyPropColl payload0 pid0 17 (by decide)

/-- C5: for a well-formed identifier, deleting a missing property returns
404 with the collection unchanged, and deleting an existing property
returns 204 after which a get on the same identifier returns 404. -/
theorem delete_property_spec (coll : PropColl) (pid : String)
    (hid : objectIdOk pid = true) :
    (coll pid = none → delete_property coll pid = (404, coll)) ∧
    (coll pid ≠ none →
      (delete_property coll pid).1 = 204 ∧
      get_property (delete_property coll pid).2 pid =
        .error 404 "Property not found") := by
  constructor
  · intro h
    simp [delete_property, hid, h]
  · intro h
    match hcoll : coll pid with
    | none => exact absurd hcoll h
    | some d =>
      refine ⟨by simp [delete_property, hid, hcoll], ?_⟩
      simp [delete_property, get_property, hid, hcoll, PropColl.remove]

/-- Witness for `delete_property_spec`: deleting a missing id from the
empty collection, and deleting the one stored document. -/
theorem delete_property_spec_witness :
    delete_property emptyPropColl pid0 = (404, emptyPropColl) ∧
    (delete_property propColl0 pid0).1 = 204 ∧
    get_property (delete_property propColl0 pid0).2 pid0 =
      .error 404 "Property not found" :=
  ⟨(delete_property_spec emptyPropColl pid0 (by decide)).1 rfl,
   (delete_property_spec propColl0 pid0 (by decide)).2 (by decide)⟩

/-- C8: a property update modifies only the fields present in the request
body: any field not mentioned in the patch keeps its stored value in every
document of the resulting collection, and documents other than the
addressed one are untouched entirely. -/
theorem update_property_frame (coll : PropColl) (pid : String)
    (patch : List (String × BVal)) (k : String)
    (hk : k ∉ patch.map Prod.fst) :
    ∀ pid' d', (update_property coll pid patch).2 pid' = some d' →
      ∃ d, coll pid' = some d ∧ d'.get k = d.get k ∧ (pid' ≠ pid → d' = d) := by
  intro pid' d' hget
  by_cases hvalid : objectIdOk pid = false
  · exact ⟨d', by simpa [update_property, hvalid] using hget, rfl, fun _ => rfl⟩
  · by_cases hempty : patch.isEmpty
    · exact ⟨d', by simpa [update_property, hvalid, hempty] using hget, rfl,
        fun _ => rfl⟩
    · match hcoll : coll pid with
      | none =>
        exact ⟨d', by simpa [update_property, hvalid, hempty, hcoll] using hget,
          rfl, fun _ => rfl⟩
      | some d =>
        have hget' :
            (if pid' = pid then some (d.setMany patch) else coll pid') = some d' := by
          simpa [update_property, hvalid, hempty, hcoll, PropColl.insert] using hget
        by_cases hp : pid' = pid
        · rw [if_pos hp] at hget'
          have hd' : d.setMany patch = d' := Option.some.inj hget'
          subst hd'
          exact ⟨d, hp ▸ hcoll, Doc.get_setMany_notMem d patch hk,
            fun hcontra => absurd hp hcontra⟩
        · rw [if_neg hp] at hget'
          exact ⟨d', hget', rfl, fun _ => rfl⟩

/-- Witness for `update_property_frame`: patching only `price` leaves
`title` (and the ids) of the stored document unchanged. -/
theorem update_property_frame_witness :
    ∃ d, propColl0 pid0 = some d ∧
      (Doc.get (propDoc0.setMany [("price", BVal.int 5)]) "title" = d.get "title") ∧
      (pid0 ≠ pid0 → propDoc0.setMany [("price", BVal.int 5)] = d) :=
  update_property_frame propColl0 pid0 [("price", BVal.int 5)] "title"
    (by decide) pid0 (propDoc0.setMany [("price", BVal.int 5)]) (by decide)

/-! ## Favorites (`app/routers/favorites.py`) -/

/-- A document of the `favorites` collection. -/
structure FavDoc where
  fid : Nat
  user_id : String
  property_id : String
  created_at : Nat
  deriving DecidableEq, Repr

/-- Database state consulted by `create_favorite`. -/
structure FavState where
  properties : PropColl
  users : String → Option Doc
  favorites : List FavDoc

/-- `create_favorite(favorite)`: validate ids, check the referenced
property and user exist, reject an existing (user, property) pair with 400,
otherwise insert. -/
def create_favorite (st : FavState) (user_id property_id : String)
    (newId now : Nat) : HResult FavDoc × FavState :=
  if objectIdOk property_id = false then (.error 400 "Invalid property ID", st)
  else
    match st.properties property_id with
    | none => (.error 404 "Property not found", st)
    | some _ =>
      if objectIdOk user_id = false then (.error 400 "Invalid user ID", st)
      else
        match st.users user_id with
        | none => (.error 404 "User not found", st)
        | some _ =>
          if st.favorites.any
              (fun f => decide (f.user_id = user_id ∧ f.property_id = property_id)) then
            (.error 400 "Property already in favorites", st)
          else
            let fav : FavDoc :=
              { fid := newId, user_id := user_id, property_id := property_id,
                created_at := now }
            (.ok fav, { st with favorites := st.favorites ++ [fav] })

/-- Number of favorite records for a (user, property) pair. -/
def favPairCount (l : List FavDoc) (u p : String) : Nat :=
  l.countP (fun f => decide (f.user_id = u ∧ f.property_id = p))

/-- The (user, property) uniqueness invariant on the favorites collection. -/
def FavUnique (l : List FavDoc) : Prop := ∀ u p, favPairCount l u p ≤ 1

-- Concrete favorites state used by the C3 witness: the property and user
-- exist and the pair is already favorited.
def favUsers0 : String → Option Doc :=
  fun u => if u = owner0 then some [("name", .str "A")] else none

def favState0 : FavState :=
  { properties := propColl0, users := favUsers0,
    favorites := [⟨1, owner0, pid0, 3⟩] }

/-- C3 counterexample: with a favorite for the pair already stored but the
referenced property since deleted (favorites are not cascade-deleted), the
second create-favorite request returns 404 "Property not found", not the
400 the claim states (it still inserts nothing). -/
theorem create_favorite_deleted_property_returns_404 :
    (let st : FavState :=
      { properties := fun _ => none,
        users := fun u => if u = owner0 then some [("name", .str "A")] else none,
        favorites := [{ fid := 1, user_id := owner0, property_id := pid0,
                        created_at := 3 }] }
     0 < favPairCount st.favorites owner0 pid0 ∧
       (create_favorite st owner0 pid0 2 9).1 = .error 404 "Property not found") := by
  constructor
  · decide
  · rfl

/-- C3 amended: when a favorite for the (user, property) pair already
exists and the referenced property and user documents still exist, a second
create-favorite request returns status 400 and leaves the state unchanged;
and every create-favorite request preserves the at-most-one-favorite-per-
pair invariant. -/
theorem create_favorite_duplicate_rejected (st : FavState) (u p : String)
    (nid now : Nat) :
    (st.properties p ≠ none → st.users u ≠ none →
      0 < favPairCount st.favorites u p →
      ∃ detail, (create_favorite st u p nid now).1 = .error 400 detail ∧
        (create_favorite st u p nid now).2 = st) ∧
    (FavUnique st.favorites →
      FavUnique (create_favorite st u p nid now).2.favorites) := by
  constructor
  · intro hprop huser hex
    by_cases hvp : objectIdOk p = false
    · refine ⟨"Invalid property ID", ?_, ?_⟩ <;>
        simp only [create_favorite, if_pos hvp]
    · match hprop' : st.properties p with
      | none => exact absurd hprop' hprop
      | some d =>
        by_cases hvu : objectIdOk u = false
        · refine ⟨"Invalid user ID", ?_, ?_⟩ <;>
            simp only [create_favorite, if_neg hvp, hprop', if_pos hvu]
        · match huser' : st.users u with
          | none => exact absurd huser' huser
          | some du =>
            have hany : st.favorites.any
                (fun f => decide (f.user_id = u ∧ f.property_id = p)) = true := by
              rw [List.any_eq_true]
              rcases List.countP_pos_iff.mp hex with ⟨f, hf, hpf⟩
              exact ⟨f, hf, hpf⟩
            refine ⟨"Property already in favorites", ?_, ?_⟩ <;>
              simp only [create_favorite, if_neg hvp, hprop', if_neg hvu, huser',
                hany, if_true]
  · intro huniq
    by_cases hvp : objectIdOk p = false
    · have h2 : (create_favorite st u p nid now).2 = st := by
        simp only [create_favorite, if_pos hvp]
      rw [h2]; exact huniq
    · match hprop' : st.properties p with
      | none =>
        have h2 : (create_favorite st u p nid now).2 = st := by
          simp only [create_favorite, if_neg hvp, hprop']
        rw [h2]; exact huniq
      | some d =>
        by_cases hvu : objectIdOk u = false
        · have h2 : (create_favorite st u p nid now).2 = st := by
            simp only [create_favorite, if_neg hvp, hprop', if_pos hvu]
          rw [h2]; exact huniq
        · match huser' : st.users u with
          | none =>
            have h2 : (create_favorite st u p nid now).2 = st := by
              simp only [create_favorite, if_neg hvp, hprop', if_neg hvu, huser']
            rw [h2]; exact huniq
          | some du =>
            by_cases hany : st.favorites.any
                (fun f => decide (f.user_id = u ∧ f.property_id = p)) = true
            · have h2 : (create_favorite st u p nid now).2 = st := by
                simp only [create_favorite, if_neg hvp, hprop', if_neg hvu, huser',
                  hany, if_true]
              rw [h2]; exact huniq
            · have hres : (create_favorite st u p nid now).2.favorites =
                  st.favorites ++ [(⟨nid, u, p, now⟩ : FavDoc)] := by
                simp only [create_favorite, if_neg hvp, hprop', if_neg hvu, huser',
                  if_neg hany]
              intro u' p'
              rw [hres]
              unfold favPairCount
              by_cases hmatch : u = u' ∧ p = p'
              · obtain ⟨hu', hp'⟩ := hmatch
                subst hu'
                subst hp'
                have hzero : st.favorites.countP
                    (fun f => decide (f.user_id = u ∧ f.property_id = p)) = 0 := by
                  rw [List.countP_eq_zero]
                  intro f hf hcontra
                  exact hany (List.any_eq_true.mpr ⟨f, hf, hcontra⟩)
                rw [List.countP_append, hzero, List.countP_cons]
                simp
              · have hone : List.countP
                    (fun f => decide (f.user_id = u' ∧ f.property_id = p'))
                    [(⟨nid, u, p, now⟩ : FavDoc)] = 0 := by
                  simp only [List.countP_cons, List.countP_nil]
                  simp [hmatch]
                rw [List.countP_append, hone]
                have hu := huniq u' p'
                unfold favPairCount at hu
                omega

/-- Witness for `create_favorite_duplicate_rejected`: the concrete
duplicate request is rejected with a 400 and the state is unchanged. -/
theorem create_favorite_duplicate_witness :
    ∃ detail,
      (create_favorite favState0 owner0 pid0 2 9).1 = .error 400 detail ∧
      (create_favorite favState0 owner0 pid0 2 9).2 = favState0 :=
  (create_favorite_duplicate_rejected favState0 owner0 pid0 2 9).1
    (by decide) (by decide) (by decide)

/-! ## Filter screen ranges (`app/routers/filter_screen.py`) -/

/-- The numeric fields of a property document consulted by the range
facets (`$min`/`$max` skip documents where the field is missing). -/
structure RangeDoc where
  price : Option Int
  area_sqft : Option Int
  deriving DecidableEq, Repr

/-- `$min` accumulator over the present values of a field. -/
def aggMin : List Int → Option Int
  | [] => none
  | v :: rest => some (rest.foldl min v)

/-- `$max` accumulator over the present values of a field. -/
def aggMax : List Int → Option Int
  | [] => none
  | v :: rest => some (rest.foldl max v)

/-- The `price_range` facet sub-pipeline: a `$group` over the whole input;
it emits no document at all when the input collection is empty, and one
`{min, max}` document otherwise (with null fields when no document carries
a `price`). -/
def price_range_facet (coll : List RangeDoc) : List (Option Int × Option Int) :=
  if coll.isEmpty then []
  else [(aggMin (coll.filterMap RangeDoc.price),
         aggMax (coll.filterMap RangeDoc.price))]

/-- The `area_range` facet sub-pipeline: `$match {area_sqft: {$gt: 0}}`
then the same `$group`. -/
def area_range_facet (coll : List RangeDoc) : List (Option Int × Option Int) :=
  let matched := coll.filter (fun d =>
    match d.area_sqft with
    | some a => decide (0 < a)
    | none => false)
  if matched.isEmpty then []
  else [(aggMin (matched.filterMap RangeDoc.area_sqft),
         aggMax (matched.filterMap RangeDoc.area_sqft))]

/-- The handler's range post-processing: take the facet's first document
(defaulting to `{min: 0, max: 0}`), read the fields with `0` for null, and
substitute `{min: 0, max: dmax}` when `max < min` or both are `0`. -/
def resolve_range (facetArr : List (Option Int × Option Int)) (dmax : Int) :
    Option Int × Option Int :=
  let pr := facetArr.headD (some 0, some 0)
  let prMin := pr.1.getD 0
  let prMax := pr.2.getD 0
  if prMax < prMin ∨ (prMin = 0 ∧ prMax = 0) then (some 0, some dmax) else pr

/-- `price_range` and `area_range` of the filter-screen response
(`get_filter_screen_options`, slider defaults 0–100 and 0–5000). -/
def get_filter_screen_ranges (coll : List RangeDoc) :
    (Option Int × Option Int) × (Option Int × Option Int) :=
  (resolve_range (price_range_facet coll) 100,
   resolve_range (area_range_facet coll) 5000)

/-- A facet output document is either all-null or a consistent min/max pair. -/
def RangeConsistent (mm : Option Int × Option Int) : Prop :=
  mm = (none, none) ∨ ∃ a b, mm = (some a, some b) ∧ a ≤ b

theorem foldl_min_le_init : ∀ (l : List Int) (v : Int), l.foldl min v ≤ v := by
  intro l
  induction l with
  | nil => intro v; exact le_refl v
  | cons a rest ih =>
    intro v
    exact le_trans (ih (min v a)) (min_le_left v a)

theorem init_le_foldl_max : ∀ (l : List Int) (v : Int), v ≤ l.foldl max v := by
  intro l
  induction l with
  | nil => intro v; exact le_refl v
  | cons a rest ih =>
    intro v
    exact le_trans (le_max_left v a) (ih (max v a))

theorem aggMin_le_aggMax (vals : List Int) : RangeConsistent (aggMin vals, aggMax vals) := by
  cases vals with
  | nil => exact Or.inl rfl
  | cons v rest =>
    refine Or.inr ⟨rest.foldl min v, rest.foldl max v, rfl, ?_⟩
    exact le_trans (foldl_min_le_init rest v) (init_le_foldl_max rest v)

theorem price_range_facet_consistent (coll : List RangeDoc) :
    ∀ mm ∈ price_range_facet coll, RangeConsistent mm := by
  intro mm hmm
  unfold price_range_facet at hmm
  by_cases h : coll.isEmpty
  · simp [h] at hmm
  · simp only [h, if_false, Bool.false_eq_true, List.mem_singleton] at hmm
    exact hmm ▸ aggMin_le_aggMax _

theorem area_range_facet_consistent (coll : List RangeDoc) :
    ∀ mm ∈ area_range_facet coll, RangeConsistent mm := by
  intro mm hmm
  unfold area_range_facet at hmm
  set matched := coll.filter (fun d =>
    match d.area_sqft with
    | some a => decide (0 < a)
    | none => false) with hm
  by_cases h : matched.isEmpty
  · simp [h] at hmm
  · simp only [h, if_false, Bool.false_eq_true, List.mem_singleton] at hmm
    exact hmm ▸ aggMin_le_aggMax _

theorem resolve_range_ok (facetArr : List (Option Int × Option Int))
    (dmax : Int) (hd : 0 ≤ dmax)
    (h : ∀ mm ∈ facetArr, RangeConsistent mm) :
    ∃ a b, resolve_range facetArr dmax = (some a, some b) ∧ a ≤ b := by
  match facetArr with
  | [] =>
    exact ⟨0, dmax, by simp [resolve_range], hd⟩
  | mm :: rest =>
    rcases h mm (List.mem_cons_self mm rest) with hnull | ⟨a, b, hab, hle⟩
    · subst hnull
      exact ⟨0, dmax, by simp [resolve_range], hd⟩
    · subst hab
      by_cases hdeg : b < a ∨ (a = 0 ∧ b = 0)
      · exact ⟨0, dmax, by simp [resolve_range, hdeg], hd⟩
      · exact ⟨a, b, by simp [resolve_range, hdeg], hle⟩

/-- C9: the filter screen always returns price and area ranges with
non-null `min ≤ max`; on the empty collection both ranges are the fallback
defaults (0–100 and 0–5000), and whenever the aggregated values of a range
are degenerate (`max < min`, or both 0, reading null as 0) that range is
the fallback default. -/
theorem filter_screen_ranges_ok (coll : List RangeDoc) :
    (∃ a b, (get_filter_screen_ranges coll).1 = (some a, some b) ∧ a ≤ b) ∧
    (∃ a b, (get_filter_screen_ranges coll).2 = (some a, some b) ∧ a ≤ b) ∧
    (coll = [] →
      get_filter_screen_ranges coll = ((some 0, some 100), (some 0, some 5000))) ∧
    (((price_range_facet coll).headD (some 0, some 0)).2.getD 0 <
        ((price_range_facet coll).headD (some 0, some 0)).1.getD 0 ∨
      (((price_range_facet coll).headD (some 0, some 0)).1.getD 0 = 0 ∧
        ((price_range_facet coll).headD (some 0, some 0)).2.getD 0 = 0) →
      (get_filter_screen_ranges coll).1 = (some 0, some 100)) ∧
    (((area_range_facet coll).headD (some 0, some 0)).2.getD 0 <
        ((area_range_facet coll).headD (some 0, some 0)).1.getD 0 ∨
      (((area_range_facet coll).headD (some 0, some 0)).1.getD 0 = 0 ∧
        ((area_range_facet coll).headD (some 0, some 0)).2.getD 0 = 0) →
      (get_filter_screen_ranges coll).2 = (some 0, some 5000)) := by
  refine ⟨resolve_range_ok _ 100 (by norm_num) (price_range_facet_consistent coll),
    resolve_range_ok _ 5000 (by norm_num) (area_range_facet_consistent coll),
    ?_, ?_, ?_⟩
  · intro h
    subst h
    rfl
  · intro hdeg
    simp only [get_filter_screen_ranges, resolve_range]
    exact if_pos hdeg
  · intro hdeg
    simp only [get_filter_screen_ranges, resolve_range]
    exact if_pos hdeg

/-- Witness for `filter_screen_ranges_ok`: the empty collection yields the
fallback defaults. -/
theorem filter_screen_ranges_witness :
    get_filter_screen_ranges [] = ((some 0, some 100), (some 0, some 5000)) :=
  (filter_screen_ranges_ok []).2.2.1 rfl

/-! ## Users (`app/routers/users.py`) -/

/-- The `users` collection: (`_id` hex string, document) pairs in insertion
order (`created_at` governs the list endpoint's sort). -/
abbrev UserColl := List (String × Doc)

/-- `hash_password`: `hashlib.sha256(password.encode()).hexdigest()`,
modelled as an injective tagging of the input — the claims depend only on
the stored value being a function of the password. -/
def hash_password (s : String) : String := "sha256:" ++ s

/-- Response shaping shared by every user endpoint:
`user["_id"] = str(user["_id"]); user.pop("password", None)`. -/
def shape_user (d : Doc) : Doc :=
  (d.set "_id" (BVal.str (strOfBVal ((d.get "_id").getD BVal.null)))).pop "password"

/-- `find_one({"_id": ObjectId(uid)})`. -/
def findById (us : UserColl) (uid : String) : Option Doc :=
  (us.find? (fun q => decide (q.1 = uid))).map Prod.snd

/-- `find_one({"email": email})`. -/
def findByEmail (us : UserColl) (em : BVal) : Option (String × Doc) :=
  us.find? (fun q => decide (q.2.get "email" = some em))

/-- `update_one({"_id": ObjectId(uid)}, {"$set": ...})` result document. -/
def setById (us : UserColl) (uid : String) (d : Doc) : UserColl :=
  us.map (fun p => if p.1 = uid then (uid, d) else p)

/-- `create_user(user)`. -/
def create_user (us : UserColl) (payload : Doc) (newId : String) (now : Nat) :
    HResult Doc × UserColl :=
  let em := (payload.get "email").getD BVal.null
  if (findByEmail us em).isSome then (.error 400 "Email already registered", us)
  else
    let pw := strOfBVal ((payload.get "password").getD BVal.null)
    let d1 := (payload.pop "password").set "password" (BVal.str (hash_password pw))
    let d2 := d1.set "created_at" (BVal.int now)
    let stored := d2.set "_id" (BVal.oid newId)
    (.ok (shape_user stored), us ++ [(newId, stored)])

/-- `get_user(user_id)`. -/
def get_user (us : UserColl) (uid : String) : HResult Doc :=
  if objectIdOk uid = false then .error 400 "Invalid user ID"
  else
    match findById us uid with
    | none => .error 404 "User not found"
    | some d => .ok (shape_user d)

/-- `get_profile(user_id)` (same body as `get_user`). -/
def get_profile (us : UserColl) (uid : String) : HResult Doc :=
  if objectIdOk uid = false then .error 400 "Invalid user ID"
  else
    match findById us uid with
    | none => .error 404 "User not found"
    | some d => .ok (shape_user d)

/-- Sort key of the list endpoint (`.sort("created_at", -1)`). -/
def docCreatedAt (d : Doc) : Int :=
  match d.get "created_at" with
  | some (BVal.int n) => n
  | _ => 0

def userNewerFirst (a b : String × Doc) : Prop :=
  docCreatedAt b.2 ≤ docCreatedAt a.2

instance : DecidableRel userNewerFirst := fun a b => by
  unfold userNewerFirst
  infer_instance

/-- The optional `user_type` filter of `get_users`. -/
def userTypeMatches (ut : Option String) (p : String × Doc) : Bool :=
  match ut with
  | none => true
  | some t => decide (p.2.get "user_type" = some (BVal.str t))

/-- `get_users(skip, limit, user_type)`: filter, newest-first sort, offset
pagination, shaping. -/
def get_users (us : UserColl) (skip limit : Nat) (ut : Option String) :
    List Doc :=
  ((((List.insertionSort userNewerFirst
      (us.filter (userTypeMatches ut))).drop skip).take limit).map
    (fun p => shape_user p.2))

/-- The update endpoints' duplicate-email guard: a patched email that
belongs to a different existing user. -/
def emailConflict (us : UserColl) (uid : String)
    (patch : List (String × BVal)) : Bool :=
  match Doc.get patch "email" with
  | none => false
  | some em =>
    match findByEmail us em with
    | none => false
    | some q => decide (q.1 ≠ uid)

/-- `update_user(user_id, user_update)`; `patch` is the
`exclude_unset=True` field list. -/
def update_user (us : UserColl) (uid : String) (patch : List (String × BVal)) :
    HResult Doc × UserColl :=
  if objectIdOk uid = false then (.error 400 "Invalid user ID", us)
  else if patch.isEmpty then (.error 400 "No fields to update", us)
  else if emailConflict us uid patch then
    (.error 400 "Email already registered", us)
  else
    match findById us uid with
    | none => (.error 404 "User not found", us)
    | some d => (.ok (shape_user (d.setMany patch)), setById us uid (d.setMany patch))

/-- `update_profile(user_id, user_update)` (same body as `update_user`). -/
def update_profile (us : UserColl) (uid : String) (patch : List (String × BVal)) :
    HResult Doc × UserColl :=
  if objectIdOk uid = false then (.error 400 "Invalid user ID", us)
  else if patch.isEmpty then (.error 400 "No fields to update", us)
  else if emailConflict us uid patch then
    (.error 400 "Email already registered", us)
  else
    match findById us uid with
    | none => (.error 404 "User not found", us)
    | some d => (.ok (shape_user (d.setMany patch)), setById us uid (d.setMany patch))

/-- Replace every stored user's `password` value by `h` of its id: two
stores "differing only in the password field" are `maskUsers us f` and
`maskUsers us g` of a common base. -/
def maskUsers (us : UserColl) (h : String → BVal) : UserColl :=
  us.map (fun p => (p.1, p.2.set "password" (h p.1)))

theorem Doc.pop_set (d : Doc) (k : String) (v : BVal) :
    (d.set k v).pop k = d.pop k := by
  induction d with
  | nil => simp [Doc.set, Doc.pop]
  | cons p rest ih =>
    by_cases hp : p.1 = k
    · simp [Doc.set, Doc.pop, hp]
    · simpa [Doc.set, Doc.pop, hp] using ih

theorem Doc.pop_set_ne (d : Doc) {k k' : String} (v : BVal) (h : k' ≠ k) :
    (d.set k' v).pop k = (d.pop k).set k' v := by
  induction d with
  | nil => simp [Doc.set, Doc.pop, h]
  | cons p rest ih =>
    by_cases hp : p.1 = k'
    · simp [Doc.set, Doc.pop, hp, h]
    · by_cases hpk : p.1 = k
      · simp [Doc.set, Doc.pop, hp, hpk, ih, Ne.symm h]
      · simp [Doc.set, Doc.pop, hp, hpk, ih]

theorem Doc.pop_setMany_congr (patch : List (String × BVal)) {k : String}
    (hk : k ∉ patch.map Prod.fst) :
    ∀ d₁ d₂ : Doc, d₁.pop k = d₂.pop k →
      (d₁.setMany patch).pop k = (d₂.setMany patch).pop k := by
  induction patch with
  | nil => intro d₁ d₂ h; exact h
  | cons kv rest ih =>
    intro d₁ d₂ h
    simp only [List.map_cons, List.mem_cons] at hk
    push_neg at hk
    have hne : kv.1 ≠ k := fun hc => hk.1 hc.symm
    refine ih hk.2 (d₁.set kv.1 kv.2) (d₂.set kv.1 kv.2) ?_
    rw [Doc.pop_set_ne d₁ kv.2 hne, Doc.pop_set_ne d₂ kv.2 hne, h]

theorem shape_user_eq (d : Doc) :
    shape_user d = (d.pop "password").set "_id"
      (BVal.str (strOfBVal ((d.get "_id").getD BVal.null))) :=
  Doc.pop_set_ne d _ (by decide)

theorem shape_user_set_password (d : Doc) (w : BVal) :
    shape_user (d.set "password" w) = shape_user d := by
  rw [shape_user_eq, shape_user_eq, Doc.pop_set,
    Doc.get_set_ne d w (by decide)]

theorem shape_user_setMany_set_password (d : Doc) (w : BVal)
    (patch : List (String × BVal)) (hpw : "password" ∉ patch.map Prod.fst)
    (hid : "_id" ∉ patch.map Prod.fst) :
    shape_user ((d.set "password" w).setMany patch) =
      shape_user (d.setMany patch) := by
  rw [shape_user_eq, shape_user_eq,
    Doc.get_setMany_notMem _ patch hid, Doc.get_setMany_notMem _ patch hid,
    Doc.get_set_ne d w (by decide),
    Doc.pop_setMany_congr patch hpw _ _ (Doc.pop_set d "password" w)]

theorem Doc.not_mem_keys_pop (d : Doc) (k : String) : k ∉ (d.pop k).keys := by
  induction d with
  | nil => simp [Doc.pop, Doc.keys]
  | cons p rest ih =>
    by_cases hp : p.1 = k
    · simpa [Doc.pop, hp] using ih
    · simp only [Doc.pop, hp, if_false, Bool.false_eq_true, Doc.keys,
        List.map_cons, List.mem_cons]
      push_neg
      exact ⟨fun hc => hp hc.symm, fun hc => ih (by simpa [Doc.keys] using hc)⟩

theorem Doc.not_mem_keys_set (d : Doc) {k k' : String} (v : BVal)
    (hne : k ≠ k') (h : k ∉ d.keys) : k ∉ (d.set k' v).keys := by
  induction d with
  | nil => simpa [Doc.set, Doc.keys] using fun hc => hne hc
  | cons p rest ih =>
    simp only [Doc.keys, List.map_cons, List.mem_cons] at h
    push_neg at h
    by_cases hp : p.1 = k'
    · simp only [Doc.set, hp, if_true, Doc.keys, List.map_cons, List.mem_cons]
      push_neg
      exact ⟨hne, fun hc => h.2 (by simpa [Doc.keys] using hc)⟩
    · simp only [Doc.set, hp, if_false, Doc.keys, List.map_cons, List.mem_cons]
      push_neg
      exact ⟨h.1, fun hc => ih h.2 (by simpa [Doc.keys] using hc)⟩

theorem shape_user_no_password (d : Doc) :
    "password" ∉ (shape_user d).keys := by
  rw [shape_user_eq]
  exact Doc.not_mem_keys_set _ _ (by decide)
    (Doc.not_mem_keys_pop d "password")

theorem findById_mask (us : UserColl) (h : String → BVal) (uid : String) :
    findById (maskUsers us h) uid =
      (findById us uid).map (fun d => d.set "password" (h uid)) := by
  unfold findById maskUsers
  rw [List.find?_map _ us]
  have hpred : ((fun q : String × Doc => decide (q.1 = uid)) ∘
      (fun p : String × Doc => (p.1, p.2.set "password" (h p.1)))) =
      (fun q : String × Doc => decide (q.1 = uid)) := rfl
  rw [hpred]
  cases hfind : us.find? (fun q : String × Doc => decide (q.1 = uid)) with
  | none => rfl
  | some q =>
    have hq' := List.find?_some hfind
    simp only [decide_eq_true_eq] at hq'
    simp [hq']

theorem findByEmail_mask (us : UserColl) (h : String → BVal) (em : BVal) :
    findByEmail (maskUsers us h) em =
      (findByEmail us em).map
        (fun p => (p.1, p.2.set "password" (h p.1))) := by
  unfold findByEmail maskUsers
  rw [List.find?_map _ us]
  have hpred : ((fun q : String × Doc => decide (q.2.get "email" = some em)) ∘
      (fun p : String × Doc => (p.1, p.2.set "password" (h p.1)))) =
      (fun q : String × Doc => decide (q.2.get "email" = some em)) := by
    funext q
    show decide ((q.2.set "password" (h q.1)).get "email" = some em) = _
    rw [Doc.get_set_ne q.2 (h q.1) (by decide)]
  rw [hpred]

theorem docCreatedAt_set_password (d : Doc) (w : BVal) :
    docCreatedAt (d.set "password" w) = docCreatedAt d := by
  unfold docCreatedAt
  rw [Doc.get_set_ne d w (by decide)]

theorem userTypeMatches_mask (ut : Option String) (h : String → BVal)
    (p : String × Doc) :
    userTypeMatches ut (p.1, p.2.set "password" (h p.1)) =
      userTypeMatches ut p := by
  cases ut with
  | none => rfl
  | some t =>
    show decide ((p.2.set "password" (h p.1)).get "user_type"
        = some (BVal.str t)) = userTypeMatches (some t) p
    rw [Doc.get_set_ne p.2 (h p.1) (by decide)]
    rfl

theorem orderedInsert_map {α : Type} (r : α → α → Prop) [DecidableRel r]
    (f : α → α) (hf : ∀ a b, r (f a) (f b) ↔ r a b) (a : α) (l : List α) :
    List.orderedInsert r (f a) (l.map f) = (List.orderedInsert r a l).map f := by
  induction l with
  | nil => rfl
  | cons b t ih =>
    by_cases hr : r a b
    · simp [List.orderedInsert, (hf a b).mpr hr, hr]
    · have hrm : ¬ r (f a) (f b) := fun hc => hr ((hf a b).mp hc)
      simp [List.orderedInsert, hrm, hr, ih]

theorem insertionSort_map {α : Type} (r : α → α → Prop) [DecidableRel r]
    (f : α → α) (hf : ∀ a b, r (f a) (f b) ↔ r a b) (l : List α) :
    List.insertionSort r (l.map f) = (List.insertionSort r l).map f := by
  induction l with
  | nil => rfl
  | cons a t ih =>
    simp only [List.map_cons, List.insertionSort, ih,
      orderedInsert_map r f hf a (List.insertionSort r t)]

theorem get_user_mask (us : UserColl) (h : String → BVal) (uid : String) :
    get_user (maskUsers us h) uid = get_user us uid := by
  unfold get_user
  rw [findById_mask us h uid]
  cases findById us uid with
  | none => rfl
  | some d => simp [shape_user_set_password]

theorem get_profile_mask (us : UserColl) (h : String → BVal) (uid : String) :
    get_profile (maskUsers us h) uid = get_profile us uid := by
  unfold get_profile
  rw [findById_mask us h uid]
  cases findById us uid with
  | none => rfl
  | some d => simp [shape_user_set_password]

theorem get_users_mask (us : UserColl) (h : String → BVal)
    (skip limit : Nat) (ut : Option String) :
    get_users (maskUsers us h) skip limit ut = get_users us skip limit ut := by
  unfold get_users maskUsers
  rw [List.filter_map _ us]
  have hpred : ((userTypeMatches ut) ∘
      (fun p : String × Doc => (p.1, p.2.set "password" (h p.1)))) =
      userTypeMatches ut := by
    funext p
    exact userTypeMatches_mask ut h p
  rw [hpred]
  rw [insertionSort_map userNewerFirst _ ?_ (us.filter (userTypeMatches ut))]
  · rw [← List.map_drop, ← List.map_take, List.map_map]
    congr 1
    funext p
    exact shape_user_set_password p.2 (h p.1)
  · intro a b
    unfold userNewerFirst
    rw [docCreatedAt_set_password, docCreatedAt_set_password]

theorem create_user_mask (us : UserColl) (h : String → BVal)
    (payload : Doc) (newId : String) (now : Nat) :
    (create_user (maskUsers us h) payload newId now).1 =
      (create_user us payload newId now).1 := by
  simp only [create_user]
  rw [findByEmail_mask us h ((payload.get "email").getD BVal.null)]
  cases hfe : findByEmail us ((payload.get "email").getD BVal.null) with
  | none => rfl
  | some q => rfl

theorem emailConflict_mask (us : UserColl) (h : String → BVal)
    (uid : String) (patch : List (String × BVal)) :
    emailConflict (maskUsers us h) uid patch = emailConflict us uid patch := by
  unfold emailConflict
  cases Doc.get patch "email" with
  | none => rfl
  | some em =>
    dsimp only
    rw [findByEmail_mask us h em]
    cases findByEmail us em with
    | none => rfl
    | some q => rfl

theorem update_user_mask (us : UserColl) (h : String → BVal) (uid : String)
    (patch : List (String × BVal)) (hpw : "password" ∉ patch.map Prod.fst)
    (hid : "_id" ∉ patch.map Prod.fst) :
    (update_user (maskUsers us h) uid patch).1 =
      (update_user us uid patch).1 := by
  unfold update_user
  rw [emailConflict_mask us h uid patch, findById_mask us h uid]
  by_cases hv : objectIdOk uid = false
  · simp [hv]
  · by_cases hemp : patch.isEmpty
    · simp [hv, hemp]
    · by_cases hc : emailConflict us uid patch
      · simp [hv, hemp, hc]
      · cases findById us uid with
        | none => simp [hv, hemp, hc]
        | some d =>
          simp [hv, hemp, hc,
            shape_user_setMany_set_password d (h uid) patch hpw hid]

theorem update_profile_mask (us : UserColl) (h : String → BVal) (uid : String)
    (patch : List (String × BVal)) (hpw : "password" ∉ patch.map Prod.fst)
    (hid : "_id" ∉ patch.map Prod.fst) :
    (update_profile (maskUsers us h) uid patch).1 =
      (update_profile us uid patch).1 := by
  unfold update_profile
  rw [emailConflict_mask us h uid patch, findById_mask us h uid]
  by_cases hv : objectIdOk uid = false
  · simp [hv]
  · by_cases hemp : patch.isEmpty
    · simp [hv, hemp]
    · by_cases hc : emailConflict us uid patch
      · simp [hv, hemp, hc]
      · cases findById us uid with
        | none => simp [hv, hemp, hc]
        | some d =>
          simp [hv, hemp, hc,
            shape_user_setMany_set_password d (h uid) patch hpw hid]

-- Concrete user store for the C10 witness.
def userDoc0 : Doc :=
  [("_id", .oid owner0), ("name", .str "Asha"), ("email", .str "a@x.com"),
   ("password", .str "sha256:pw"), ("created_at", .int 5)]

def usersColl0 : UserColl := [(owner0, userDoc0)]

def maskX : String → BVal := fun _ => BVal.str "masked"

/-- C10: no user-returning endpoint exposes the stored password hash.
Masking every stored password (`maskUsers`) leaves each endpoint's response
unchanged — so two stores differing only in password fields produce
identical responses — and no response document of any of the endpoints
carries a `password` key.  The update endpoints' patches range over the
`UserUpdate` schema fields, which do not include `password` or `_id`. -/
theorem user_endpoints_hide_password
    (us : UserColl) (h : String → BVal) (uid newId : String)
    (payload : Doc) (patch : List (String × BVal))
    (now skip limit : Nat) (ut : Option String)
    (hpw : "password" ∉ patch.map Prod.fst)
    (hid : "_id" ∉ patch.map Prod.fst) :
    ((create_user (maskUsers us h) payload newId now).1 =
      (create_user us payload newId now).1) ∧
    (get_users (maskUsers us h) skip limit ut = get_users us skip limit ut) ∧
    (get_user (maskUsers us h) uid = get_user us uid) ∧
    (get_profile (maskUsers us h) uid = get_profile us uid) ∧
    ((update_user (maskUsers us h) uid patch).1 =
      (update_user us uid patch).1) ∧
    ((update_profile (maskUsers us h) uid patch).1 =
      (update_profile us uid patch).1) ∧
    (∀ d, (create_user us payload newId now).1 = .ok d →
      "password" ∉ d.keys) ∧
    (∀ d ∈ get_users us skip limit ut, "password" ∉ d.keys) ∧
    (∀ d, get_user us uid = .ok d → "password" ∉ d.keys) ∧
    (∀ d, get_profile us uid = .ok d → "password" ∉ d.keys) ∧
    (∀ d, (update_user us uid patch).1 = .ok d → "password" ∉ d.keys) ∧
    (∀ d, (update_profile us uid patch).1 = .ok d → "password" ∉ d.keys) := by
  refine ⟨create_user_mask us h payload newId now,
    get_users_mask us h skip limit ut,
    get_user_mask us h uid,
    get_profile_mask us h uid,
    update_user_mask us h uid patch hpw hid,
    update_profile_mask us h uid patch hpw hid,
    ?_, ?_, ?_, ?_, ?_, ?_⟩
  · intro d hd
    by_cases hfe : (findByEmail us ((payload.get "email").getD BVal.null)).isSome
    · simp [create_user, hfe] at hd
    · simp [create_user, hfe] at hd
      exact hd ▸ shape_user_no_password _
  · intro d hd
    unfold get_users at hd
    rcases List.mem_map.mp hd with ⟨p, _, hp⟩
    exact hp ▸ shape_user_no_password p.2
  · intro d hd
    unfold get_user at hd
    by_cases hv : objectIdOk uid = false
    · simp [hv] at hd
    · cases hfi : findById us uid with
      | none => simp [hv, hfi] at hd
      | some dd =>
        simp [hv, hfi] at hd
        exact hd ▸ shape_user_no_password dd
  · intro d hd
    unfold get_profile at hd
    by_cases hv : objectIdOk uid = false
    · simp [hv] at hd
    · cases hfi : findById us uid with
      | none => simp [hv, hfi] at hd
      | some dd =>
        simp [hv, hfi] at hd
        exact hd ▸ shape_user_no_password dd
  · intro d hd
    unfold update_user at hd
    by_cases hv : objectIdOk uid = false
    · simp [hv] at hd
    · by_cases hemp : patch.isEmpty
      · simp [hv, hemp] at hd
      · by_cases hc : emailConflict us uid patch
        · simp [hv, hemp, hc] at hd
        · cases hfi : findById us uid with
          | none => simp [hv, hemp, hc, hfi] at hd
          | some dd =>
            simp [hv, hemp, hc, hfi] at hd
            exact hd ▸ shape_user_no_password _
  · intro d hd
    unfold update_profile at hd
    by_cases hv : objectIdOk uid = false
    · simp [hv] at hd
    · by_cases hemp : patch.isEmpty
      · simp [hv, hemp] at hd
      · by_cases hc : emailConflict us uid patch
        · simp [hv, hemp, hc] at hd
        · cases hfi : findById us uid with
          | none => simp [hv, hemp, hc, hfi] at hd
          | some dd =>
            simp [hv, hemp, hc, hfi] at hd
            exact hd ▸ shape_user_no_password _

/-- Witness for `user_endpoints_hide_password`: on a concrete one-user
store, masking the stored password leaves the get-user response unchanged,
and the response document has no `password` key. -/
theorem user_endpoints_hide_password_witness :
    get_user (maskUsers usersColl0 maskX) owner0 = get_user usersColl0 owner0 ∧
    "password" ∉ (shape_user userDoc0).keys := by
  have H := user_endpoints_hide_password usersColl0 maskX owner0 pid0
    userDoc0 [("name", BVal.str "N")] 3 0 10 none (by decide) (by decide)
  exact ⟨H.2.2.1, H.2.2.2.2.2.2.2.2.1 (shape_user userDoc0) (by decide)⟩

/-! ## Property listing with pagination (`get_properties`) -/

/-- A property document as consulted by the listing endpoint's filters and
sort (prices/areas as integers: the model is ordering-exact). -/
structure PropDoc where
  id : Nat
  posted_at : Int
  transaction_type : String
  property_category : String
  property_subtype : String
  furnishing : String
  facing : String
  price : Int
  area_sqft : Int
  bedrooms : Nat
  bathrooms : Nat
  city : String
  locality : String
  store_room : Bool
  servant_room : Bool
  deriving DecidableEq, Repr

/-- The optional filter parameters of `get_properties` (`None` both for an
absent parameter and for a falsy empty string, which the code also skips). -/
structure ListQuery where
  transaction_type : Option String
  min_price : Option Int
  max_price : Option Int
  min_bedrooms : Option Nat
  min_bathrooms : Option Nat
  city : Option String
  locality : Option String
  furnishing : Option String
  property_category : Option String
  property_subtype : Option String
  facing : Option String
  min_area : Option Int
  max_area : Option Int
  store_room : Option Bool
  servant_room : Option Bool
  deriving Repr

def hasPrefixChars : List Char → List Char → Bool
  | [], _ => true
  | _ :: _, [] => false
  | a :: as, b :: bs => a = b && hasPrefixChars as bs

/-- `needle` occurs contiguously in `hay`. -/
def containsChars (hay needle : List Char) : Bool :=
  match hay with
  | [] => needle.isEmpty
  | _ :: rest => hasPrefixChars needle hay || containsChars rest needle

/-- `{"$regex": pattern, "$options": "i"}` applied to a plain pattern:
case-insensitive substring match. -/
def regexMatchI (pattern field : String) : Bool :=
  containsChars (field.toList.map lowerChar) (pattern.toList.map lowerChar)

/-- The conjunction of the optional filters built by `get_properties`. -/
def matchesQuery (q : ListQuery) (d : PropDoc) : Bool :=
  (match q.transaction_type with
   | none => true
   | some t => decide (d.transaction_type = lowerStr t)) &&
  (match q.property_category with
   | none => true
   | some c => decide (d.property_category = lowerStr c)) &&
  (match q.property_subtype with
   | none => true
   | some v => decide (d.property_subtype = v)) &&
  (match q.furnishing with
   | none => true
   | some f => decide (d.furnishing = lowerStr f)) &&
  (match q.facing with
   | none => true
   | some f => decide (d.facing = f)) &&
  (match q.min_price with
   | none => true
   | some m => decide (m ≤ d.price)) &&
  (match q.max_price with
   | none => true
   | some m => decide (d.price ≤ m)) &&
  (match q.min_area with
   | none => true
   | some m => decide (m ≤ d.area_sqft)) &&
  (match q.max_area with
   | none => true
   | some m => decide (d.area_sqft ≤ m)) &&
  (match q.min_bedrooms with
   | none => true
   | some m => decide (m ≤ d.bedrooms)) &&
  (match q.min_bathrooms with
   | none => true
   | some m => decide (m ≤ d.bathrooms)) &&
  (match q.city with
   | none => true
   | some c => regexMatchI c d.city) &&
  (match q.locality with
   | none => true
   | some l => regexMatchI l d.locality) &&
  (match q.store_room with
   | none => true
   | some b => decide (d.store_room = b)) &&
  (match q.servant_room with
   | none => true
   | some b => decide (d.servant_room = b))

/-- The sanitised sort key: `sort_by` when it is one of the three allowed
fields, `posted_at` otherwise. -/
def sortKey (sort_by : String) (d : PropDoc) : Int :=
  if sort_by = "price" then d.price
  else if sort_by = "area_sqft" then d.area_sqft
  else d.posted_at

/-- The cursor sort order: key-descending when `sort_order.lower()` is
`"desc"`, key-ascending otherwise. -/
def propSortRel (sort_by sort_order : String) (a b : PropDoc) : Prop :=
  if lowerStr sort_order = "desc" then
    sortKey sort_by b ≤ sortKey sort_by a
  else
    sortKey sort_by a ≤ sortKey sort_by b

instance (sb so : String) : DecidableRel (propSortRel sb so) := fun a b => by
  unfold propSortRel
  infer_instance

instance (sb so : String) : IsTotal PropDoc (propSortRel sb so) := ⟨by
  intro a b
  by_cases hdesc : lowerStr so = "desc" <;> simp [propSortRel, hdesc] <;>
    exact le_total _ _⟩

instance (sb so : String) : IsTrans PropDoc (propSortRel sb so) := ⟨by
  intro a b c hab hbc
  by_cases hdesc : lowerStr so = "desc" <;>
    simp only [propSortRel, hdesc, if_true, if_false] at hab hbc ⊢ <;>
    first
      | exact le_trans hbc hab
      | exact le_trans hab hbc⟩

/-- The shaped body of `PropertyListResponse`. -/
structure PropListResponse where
  properties : List PropDoc
  total : Nat
  page : Nat
  limit : Nat
  total_pages : Nat
  has_next : Bool
  has_prev : Bool
  deriving DecidableEq, Repr

/-- `get_properties(page, limit, filters..., sort_by, sort_order)`:
count matching documents, sort, `skip((page-1)*limit).limit(limit)`,
and compute `total_pages = ceil(total/limit) if total > 0 else 0`,
`has_next = page < total_pages`, `has_prev = page > 1`. -/
def get_properties (coll : List PropDoc) (q : ListQuery) (page limit : Nat)
    (sort_by sort_order : String) : PropListResponse :=
  let query := coll.filter (matchesQuery q)
  let total := query.length
  let sorted := List.insertionSort (propSortRel sort_by sort_order) query
  let props := (sorted.drop ((page - 1) * limit)).take limit
  let total_pages := if 0 < total then (total + limit - 1) / limit else 0
  { properties := props, total := total, page := page, limit := limit,
    total_pages := total_pages,
    has_next := decide (page < total_pages),
    has_prev := decide (1 < page) }

/-- Concatenation of the `properties` lists of pages `1..total_pages`. -/
def allPages (coll : List PropDoc) (q : ListQuery) (limit : Nat)
    (sort_by sort_order : String) : List PropDoc :=
  ((List.range (get_properties coll q 1 limit sort_by sort_order).total_pages).map
    (fun i => (get_properties coll q (i + 1) limit sort_by sort_order).properties)).flatten

theorem join_chunks {α : Type} (l : List α) (k : Nat) :
    ∀ n, ((List.range n).map (fun i => (l.drop (i * k)).take k)).flatten
      = l.take (n * k) := by
  intro n
  induction n with
  | zero => simp
  | succ m ih =>
    rw [List.range_succ, List.map_append, List.flatten_append]
    simp only [List.map_cons, List.map_nil, List.flatten_cons,
      List.flatten_nil, List.append_nil]
    rw [ih, show (m + 1) * k = m * k + k from by ring, List.take_add]

theorem ceilDiv_succ_shift (t l : Nat) (hl : 0 < l) (ht : 0 < t) :
    (t + l - 1) / l = (t - 1) / l + 1 := by
  have h1 : t + l - 1 = (t - 1) + l := by omega
  rw [h1, Nat.add_div_right _ hl]

theorem le_ceilDiv_mul (t l : Nat) (hl : 0 < l) (ht : 0 < t) :
    t ≤ ((t + l - 1) / l) * l := by
  rw [ceilDiv_succ_shift t l hl ht]
  have h1 : l * ((t - 1) / l) + (t - 1) % l = t - 1 := Nat.div_add_mod (t - 1) l
  have h2 : (t - 1) % l < l := Nat.mod_lt _ hl
  have h3 : ((t - 1) / l + 1) * l = l * ((t - 1) / l) + l := by ring
  omega

theorem ceilDiv_pred_mul_lt (t l : Nat) (hl : 0 < l) (ht : 0 < t) :
    ((t + l - 1) / l - 1) * l < t := by
  rw [ceilDiv_succ_shift t l hl ht]
  simp only [Nat.add_sub_cancel]
  have h1 := Nat.div_mul_le_self (t - 1) l
  omega

theorem ceilDiv_eq_nat_ceil (t l : Nat) (hl : 0 < l) (ht : 0 < t) :
    (t + l - 1) / l = Nat.ceil ((t : ℚ) / (l : ℚ)) := by
  have hq0 : (t + l - 1) / l ≠ 0 := by
    rw [ceilDiv_succ_shift t l hl ht]
    exact Nat.succ_ne_zero _
  symm
  rw [Nat.ceil_eq_iff hq0]
  have hlq : (0 : ℚ) < (l : ℚ) := by exact_mod_cast hl
  constructor
  · rw [lt_div_iff₀ hlq]
    exact_mod_cast ceilDiv_pred_mul_lt t l hl ht
  · rw [div_le_iff₀ hlq]
    exact_mod_cast le_ceilDiv_mul t l hl ht

theorem get_properties_total (coll : List PropDoc) (q : ListQuery)
    (page limit : Nat) (sb so : String) :
    (get_properties coll q page limit sb so).total =
      (coll.filter (matchesQuery q)).length := rfl

theorem get_properties_total_pages (coll : List PropDoc) (q : ListQuery)
    (page limit : Nat) (sb so : String) :
    (get_properties coll q page limit sb so).total_pages =
      (if 0 < (coll.filter (matchesQuery q)).length
       then ((coll.filter (matchesQuery q)).length + limit - 1) / limit
       else 0) := rfl

theorem get_properties_props (coll : List PropDoc) (q : ListQuery)
    (page limit : Nat) (sb so : String) :
    (get_properties coll q page limit sb so).properties =
      ((List.insertionSort (propSortRel sb so)
        (coll.filter (matchesQuery q))).drop ((page - 1) * limit)).take limit := rfl

/-- Concatenating pages `1..total_pages` recovers the whole sorted query
result. -/
theorem allPages_eq_sorted (coll : List PropDoc) (q : ListQuery)
    (limit : Nat) (sb so : String) (hlim : 0 < limit) :
    allPages coll q limit sb so =
      List.insertionSort (propSortRel sb so) (coll.filter (matchesQuery q)) := by
  unfold allPages
  rw [get_properties_total_pages]
  simp only [get_properties_props, Nat.add_sub_cancel]
  by_cases ht : 0 < (coll.filter (matchesQuery q)).length
  · rw [if_pos ht, join_chunks]
    have hlen : (List.insertionSort (propSortRel sb so)
        (coll.filter (matchesQuery q))).length =
        (coll.filter (matchesQuery q)).length :=
      (List.perm_insertionSort _ _).length_eq
    apply List.take_of_length_le
    rw [hlen]
    exact le_ceilDiv_mul _ limit hlim ht
  · rw [if_neg ht]
    have hq : coll.filter (matchesQuery q) = [] :=
      List.eq_nil_of_length_eq_zero (by omega)
    simp [hq]

-- Concrete listing inputs for the C1 witness.
def propDocA : PropDoc :=
  { id := 1, posted_at := 30, transaction_type := "sale",
    property_category := "residential", property_subtype := "flat",
    furnishing := "furnished", facing := "North", price := 100,
    area_sqft := 500, bedrooms := 2, bathrooms := 1, city := "Delhi",
    locality := "Rohini", store_room := false, servant_room := false }

def propDocB : PropDoc :=
  { propDocA with id := 2, posted_at := 10, price := 50 }

def propDocC : PropDoc :=
  { propDocA with id := 3, posted_at := 20, transaction_type := "rent" }

def listColl0 : List PropDoc := [propDocA, propDocB, propDocC]

def emptyQuery : ListQuery :=
  { transaction_type := none, min_price := none, max_price := none,
    min_bedrooms := none, min_bathrooms := none, city := none,
    locality := none, furnishing := none, property_category := none,
    property_subtype := none, facing := none, min_area := none,
    max_area := none, store_room := none, servant_room := none }

/-- C1: for every page ≥ 1 and limit in [1, 100], the listing response
under the default sort satisfies `total_pages = ceil(total/limit)` (0 when
`total = 0`), `has_next = (page < total_pages)`, `has_prev = (page > 1)`,
and the concatenation of the `properties` lists of pages `1..total_pages`
has exactly `total` items, no duplicates (given distinct stored ids), and
is ordered by descending `posted_at`. -/
theorem get_properties_pagination_invariant
    (coll : List PropDoc) (q : ListQuery) (page limit : Nat)
    (hpage : 1 ≤ page) (hlim1 : 1 ≤ limit) (hlim2 : limit ≤ 100)
    (hnodup : (coll.map PropDoc.id).Nodup) :
    ((get_properties coll q page limit "posted_at" "desc").total = 0 →
      (get_properties coll q page limit "posted_at" "desc").total_pages = 0) ∧
    (0 < (get_properties coll q page limit "posted_at" "desc").total →
      (get_properties coll q page limit "posted_at" "desc").total_pages =
        Nat.ceil
          (((get_properties coll q page limit "posted_at" "desc").total : ℚ) /
            (limit : ℚ))) ∧
    ((get_properties coll q page limit "posted_at" "desc").has_next =
      decide (page <
        (get_properties coll q page limit "posted_at" "desc").total_pages)) ∧
    ((get_properties coll q page limit "posted_at" "desc").has_prev =
      decide (1 < page)) ∧
    ((allPages coll q limit "posted_at" "desc").length =
      (get_properties coll q page limit "posted_at" "desc").total) ∧
    ((allPages coll q limit "posted_at" "desc").map PropDoc.id).Nodup ∧
    List.Sorted (fun a b : PropDoc => b.posted_at ≤ a.posted_at)
      (allPages coll q limit "posted_at" "desc") := by
  have hlim : 0 < limit := hlim1
  have hall := allPages_eq_sorted coll q limit "posted_at" "desc" hlim
  refine ⟨?_, ?_, rfl, rfl, ?_, ?_, ?_⟩
  · intro h0
    rw [get_properties_total] at h0
    rw [get_properties_total_pages, if_neg]
    omega
  · intro hpos
    rw [get_properties_total] at hpos
    rw [get_properties_total_pages, get_properties_total, if_pos hpos]
    exact ceilDiv_eq_nat_ceil _ limit hlim hpos
  · rw [hall, get_properties_total]
    exact (List.perm_insertionSort _ _).length_eq
  · rw [hall]
    have hperm := (List.perm_insertionSort (propSortRel "posted_at" "desc")
      (coll.filter (matchesQuery q))).map PropDoc.id
    refine hperm.nodup_iff.mpr ?_
    exact List.Nodup.sublist
      (List.Sublist.map PropDoc.id (List.filter_sublist coll)) hnodup
  · rw [hall]
    have hrel : propSortRel "posted_at" "desc" =
        fun a b : PropDoc => b.posted_at ≤ a.posted_at := by
      funext a b
      rfl
    rw [← hrel]
    exact List.sorted_insertionSort _ _

/-- Witness for `get_properties_pagination_invariant` on a concrete
three-document collection with limit 2. -/
theorem get_properties_pagination_witness :
    (allPages listColl0 emptyQuery 2 "posted_at" "desc").length =
      (get_properties listColl0 emptyQuery 1 2 "posted_at" "desc").total ∧
    (0 < (get_properties listColl0 emptyQuery 1 2 "posted_at" "desc").total →
      (get_properties listColl0 emptyQuery 1 2 "posted_at" "desc").total_pages =
        Nat.ceil
          (((get_properties listColl0 emptyQuery 1 2 "posted_at" "desc").total : ℚ) /
            (2 : ℚ))) := by
  have H := get_properties_pagination_invariant listColl0 emptyQuery 1 2
    (by decide) (by decide) (by decide) (by decide)
  exact ⟨H.2.2.2.2.1, H.2.1⟩

end Hunt
